import Mathlib

/-!
Shallow embedding of the credential and session gateway of `src/main.py`
(a FastAPI tutorial application): password authentication against an
in-memory user store, JWT issuance (`create_access_token`), JWT
verification and user resolution (`get_current_user`), the active-user
gate (`get_current_active_user`), the login endpoint
(`login_for_access_token`, the first handler registered on POST /token)
and the authenticated endpoint GET /users/me (`read_users_me`).

Modelling conventions:
* time is an integer count of seconds (`datetime.utcnow()` becomes a
  `now : Int` parameter; `timedelta` becomes `Int` seconds);
* a JWT is modelled abstractly: `Token.signed payload key alg` stands for
  a well-formed JWS produced by `jwt.encode(payload, key, alg)`, and
  `Token.malformed s` for any string that is not a structurally valid JWT.
  Forgery-freeness of HMAC is a cryptographic assumption outside this
  model, so "signed with key k" is represented by the `key` component;
* `jose.jwt.decode` validates the signature (key and accepted algorithm
  list) and then the registered `exp` claim: with zero leeway the token is
  expired exactly when `exp < now`; `ExpiredSignatureError` and the other
  decode failures are all subclasses of `JWTError`, modelled as
  constructors of one `JWTError` type;
* `passlib`'s bcrypt verification is an external vetted primitive, passed
  in as an opaque boolean function `verify_pw plain hashed`;
* Python functions that `raise HTTPException` are embedded as
  `Except HTTPException` values; of the exception's headers only the
  `WWW-Authenticate` entry occurs in this code, kept as an `Option String`;
* Python's `fake_users_db` dict (username -> record) is an association
  list; functions reading the module-level global take the store as an
  explicit parameter, and `fake_users_db` is the concrete store of
  `src/main.py`;
* Python truthiness is translated at each use site: `if not user:` on a
  `UserInDB | False` value becomes `Option.isNone`, `if expires_delta:`
  on an `Optional[timedelta]` is false for both `None` and the zero
  `timedelta`, and `if current_user.disabled:` on an `Optional[bool]` is
  true exactly for `some true`.
-/

/-- Equality of embedded results (success value or raised exception) is
decidable whenever both component types have decidable equality. -/
instance exceptDecEq (ε α : Type) [DecidableEq ε] [DecidableEq α] :
    DecidableEq (Except ε α) := fun x y =>
  match x, y with
  | .error e, .error f =>
    if h : e = f then .isTrue (by rw [h]) else .isFalse (by simp [h])
  | .error _, .ok _ => .isFalse (by simp)
  | .ok _, .error _ => .isFalse (by simp)
  | .ok a, .ok b =>
    if h : a = b then .isTrue (by rw [h]) else .isFalse (by simp [h])

/-- Claims carried by a token payload: the `sub` (subject) and `exp`
(expiry, seconds since the epoch) keys of the encoded dict. -/
structure Payload where
  sub : Option String := none
  exp : Option Int := none
deriving DecidableEq

/-- A bearer token string: either a well-formed JWT signed with `key`
under algorithm `alg` over `payload`, or a malformed string. -/
inductive Token where
  | signed (payload : Payload) (key : String) (alg : String)
  | malformed (raw : String)
deriving DecidableEq

/-- Failure raised by `jose.jwt.decode`; every constructor corresponds to
a subclass of `jose.JWTError` (and is caught by `except JWTError`). -/
inductive JWTError where
  /-- the token string is not a structurally valid JWT -/
  | invalidToken
  /-- signature check failed: wrong key or algorithm not accepted -/
  | invalidSignature
  /-- the registered `exp` claim has elapsed (`jose.ExpiredSignatureError`) -/
  | expiredSignature
deriving DecidableEq

/-- SECRET_KEY of src/main.py line 167. -/
def SECRET_KEY : String :=
  "09d25e094faa6ca2556c818166b7a9563b93f7099f6f0f4caa6cf63b88e8d3e7"

/-- ALGORITHM of src/main.py line 168. -/
def ALGORITHM : String := "HS256"

/-- ACCESS_TOKEN_EXPIRE_MINUTES of src/main.py line 169. -/
def ACCESS_TOKEN_EXPIRE_MINUTES : Int := 30

/-- jose.jwt.decode(token, key, algorithms): verifies the signature against
`key` and the accepted algorithm list, then validates the `exp` claim
against the current time (strict comparison, zero leeway); a payload
without an `exp` claim is not expiry-checked (jose does not require
`exp` by default). Returns the decoded payload. -/
def jwtDecode (token : Token) (key : String) (algorithms : List String)
    (now : Int) : Except JWTError Payload :=
  match token with
  | .malformed _ => .error .invalidToken
  | .signed payload k a =>
    if k = key ∧ a ∈ algorithms then
      match payload.exp with
      | some e => if e < now then .error .expiredSignature else .ok payload
      | none => .ok payload
    else .error .invalidSignature

/-- User record as stored in the fake database and reconstructed by
`UserInDB(**user_dict)` (src/main.py lines 48-56). -/
structure UserInDB where
  username : String
  email : Option String := none
  full_name : Option String := none
  disabled : Option Bool := none
  hashed_password : String
deriving DecidableEq

/-- fastapi.HTTPException as raised in this code: a status code, a detail
string, and (only ever) a `WWW-Authenticate` header. -/
structure HTTPException where
  status_code : Nat
  detail : String
  www_authenticate : Option String := none
deriving DecidableEq

/-- The `credentials_exception` built in get_current_user
(src/main.py lines 142-146). -/
def credentials_exception : HTTPException :=
  { status_code := 401
    detail := "Could not validate credentials"
    www_authenticate := some "Bearer" }

/-- get_user (src/main.py lines 115-118): `if username in db: return
UserInDB(**db[username])`, implicitly returning None otherwise. -/
def get_user : List (String × UserInDB) → String → Option UserInDB
  | [], _ => none
  | (k, v) :: rest, username =>
    if k = username then some v else get_user rest username

/-- authenticate_user (src/main.py lines 121-127). Returns the Python
`False` as `none`: both the unknown-username case and the wrong-password
case produce this same value. `verify_pw` stands for
`pwd_context.verify` (bcrypt, an external primitive). -/
def authenticate_user (verify_pw : String → String → Bool)
    (fake_db : List (String × UserInDB)) (username password : String) :
    Option UserInDB :=
  match get_user fake_db username with
  | none => none
  | some user =>
    if verify_pw password user.hashed_password then some user else none

/-- create_access_token (src/main.py lines 130-138). `expires_delta` is an
optional duration in seconds; `if expires_delta:` is Python truthiness,
false for both `None` and a zero timedelta, in which cases the default
of 15 minutes applies. The result is signed with the module constants. -/
def create_access_token (data : Payload) (now : Int)
    (expires_delta : Option Int) : Token :=
  let expire : Int :=
    match expires_delta with
    | some d => if d = 0 then now + 15 * 60 else now + d
    | none => now + 15 * 60
  Token.signed { data with exp := some expire } SECRET_KEY ALGORITHM

/-- get_current_user (src/main.py lines 141-158): decodes the token with
SECRET_KEY and algorithms=[ALGORITHM]; any JWTError (including
ExpiredSignatureError) and a missing `sub` claim raise the one
`credentials_exception`; then the user is loaded from the store and a
missing user raises the same exception; on success the full UserInDB
record is returned. -/
def get_current_user (db : List (String × UserInDB)) (now : Int)
    (token : Token) : Except HTTPException UserInDB :=
  match jwtDecode token SECRET_KEY [ALGORITHM] now with
  | .error _ => .error credentials_exception
  | .ok payload =>
    match payload.sub with
    | none => .error credentials_exception
    | some username =>
      match get_user db username with
      | none => .error credentials_exception
      | some user => .ok user

/-- get_current_active_user (src/main.py lines 208-211) composed with its
dependency get_current_user: `if current_user.disabled:` is truthy
exactly for `some true` (`None` and `False` are falsy). -/
def get_current_active_user (db : List (String × UserInDB)) (now : Int)
    (token : Token) : Except HTTPException UserInDB :=
  match get_current_user db now token with
  | .error e => .error e
  | .ok current_user =>
    if current_user.disabled = some true then
      .error { status_code := 400, detail := "Inactive user" }
    else .ok current_user

/-- The response body of the login endpoint, shaped by the `Token`
response model of src/main.py lines 182-184. -/
structure TokenResponse where
  access_token : Token
  token_type : String
deriving DecidableEq

/-- login_for_access_token (src/main.py lines 214-227), the first handler
registered on POST /token (the later duplicate `login` handler is
shadowed by first-match routing). `if not user:` is falsy exactly when
authenticate_user returned False. -/
def login_for_access_token (verify_pw : String → String → Bool)
    (db : List (String × UserInDB)) (now : Int)
    (username password : String) : Except HTTPException TokenResponse :=
  match authenticate_user verify_pw db username password with
  | none =>
    .error { status_code := 401
             detail := "Incorrect username or password"
             www_authenticate := some "Bearer" }
  | some user =>
    let access_token := create_access_token { sub := some user.username }
      now (some (ACCESS_TOKEN_EXPIRE_MINUTES * 60))
    .ok { access_token := access_token, token_type := "bearer" }

/-- fake_hash_password (src/main.py lines 204-205), used only by the
shadowed second POST /token handler. -/
def fake_hash_password (password : String) : String :=
  "fakehashed" ++ password

/-- The second, shadowed POST /token handler `login`
(src/main.py lines 230-240); never dispatched by the router because
login_for_access_token is registered first on the same path. -/
def login (db : List (String × UserInDB)) (username password : String) :
    Except HTTPException TokenResponse :=
  match get_user db username with
  | none =>
    .error { status_code := 400, detail := "Incorrect username or password" }
  | some user =>
    if fake_hash_password password = user.hashed_password then
      .ok { access_token := Token.malformed user.username
            token_type := "bearer" }
    else
      .error { status_code := 400, detail := "Incorrect username or password" }

/-- read_users_me (src/main.py lines 440-442): the handler body returns
`current_user` unchanged, and the route declares no response_model, so
the full UserInDB produced by the dependency chain is the response. -/
def read_users_me (db : List (String × UserInDB)) (now : Int)
    (token : Token) : Except HTTPException UserInDB :=
  get_current_active_user db now token

/-- The johndoe record of fake_users_db (src/main.py lines 172-180). -/
def johndoe : UserInDB :=
  { username := "johndoe"
    email := some "johndoe@example.com"
    full_name := some "John Doe"
    disabled := some false
    hashed_password := "$2b$12$EixZaYVK1fsbw1ZfbX3OXePaWxn96p36WQoeG6Lruj3vjPGga31lW" }

/-- fake_users_db (src/main.py lines 172-180). -/
def fake_users_db : List (String × UserInDB) := [("johndoe", johndoe)]

/-- A johndoe variant with `disabled = True`, for exercising the
active-user gate. -/
def johndoeDisabled : UserInDB := { johndoe with disabled := some true }

/-- A johndoe variant with `disabled` unset (the model default None). -/
def johndoeNoneDisabled : UserInDB := { johndoe with disabled := none }

/-- Claim C1, counterexample: a token signed with SECRET_KEY under
ALGORITHM, whose expiry (2000) has not elapsed at time 1000 — jwtDecode
accepts it — is nevertheless rejected by get_current_user because its
payload lacks a `sub` claim. So "signed with the secret under the
configured algorithm and unexpired" does not suffice for acceptance. -/
theorem c1_counterexample :
    jwtDecode (Token.signed { sub := none, exp := some 2000 } SECRET_KEY ALGORITHM)
        SECRET_KEY [ALGORITHM] 1000 = .ok { sub := none, exp := some 2000 } ∧
    get_current_user fake_users_db 1000
        (Token.signed { sub := none, exp := some 2000 } SECRET_KEY ALGORITHM) =
      .error credentials_exception := by
  exact ⟨by decide, by decide⟩

/-- Helper: a token signed with SECRET_KEY under ALGORITHM whose exp claim
(if any) has not elapsed decodes successfully to its payload. -/
theorem jwtDecode_signed_ok (p : Payload) (now : Int)
    (h : ∀ e, p.exp = some e → ¬ e < now) :
    jwtDecode (.signed p SECRET_KEY ALGORITHM) SECRET_KEY [ALGORITHM] now =
      .ok p := by
  cases he : p.exp with
  | none => simp [jwtDecode, he]
  | some e => simp [jwtDecode, he, h e he]

/-- Helper: a successful decode against the module constants comes exactly
from a token signed with SECRET_KEY under ALGORITHM whose exp claim (if
any) has not elapsed. -/
theorem jwtDecode_ok_inv (token : Token) (now : Int) (p : Payload)
    (h : jwtDecode token SECRET_KEY [ALGORITHM] now = .ok p) :
    token = .signed p SECRET_KEY ALGORITHM ∧
      ∀ e, p.exp = some e → ¬ e < now := by
  cases token with
  | malformed s => simp [jwtDecode] at h
  | signed q k a =>
    simp only [jwtDecode] at h
    split at h
    · next hcond =>
      obtain ⟨hk, ha⟩ := hcond
      simp only [List.mem_singleton] at ha
      subst hk; subst ha
      cases he : q.exp with
      | none =>
        simp only [he] at h
        injection h with h2
        subst h2
        refine ⟨rfl, ?_⟩
        intro e hep
        rw [he] at hep
        simp at hep
      | some e =>
        simp only [he] at h
        split at h
        · simp at h
        · next hnlt =>
          injection h with h2
          subst h2
          refine ⟨rfl, ?_⟩
          intro e' hep
          rw [he] at hep
          injection hep with h3
          subst h3
          exact hnlt
    · simp at h

/-- Helper: get_current_user succeeds exactly when the token decodes, its
payload carries a subject, and that subject is present in the store; the
returned value is the stored record. -/
theorem get_current_user_ok_iff (db : List (String × UserInDB)) (now : Int)
    (token : Token) (user : UserInDB) :
    get_current_user db now token = .ok user ↔
      ∃ p u, jwtDecode token SECRET_KEY [ALGORITHM] now = .ok p ∧
        p.sub = some u ∧ get_user db u = some user := by
  cases hdec : jwtDecode token SECRET_KEY [ALGORITHM] now with
  | error e => simp [get_current_user, hdec, credentials_exception]
  | ok p =>
    cases hsub : p.sub with
    | none => simp [get_current_user, hdec, hsub, credentials_exception]
    | some u =>
      cases hu : get_user db u with
      | none => simp [get_current_user, hdec, hsub, hu, credentials_exception]
      | some w => simp [get_current_user, hdec, hsub, hu]

/-- Claim C1, amended: a bearer token is accepted by get_current_user if
and only if it was signed with the process-wide secret key under the
configured algorithm, its expiry has not elapsed, its payload carries a
`sub` claim, and that subject names a user present in the user store;
every other token is rejected. -/
theorem c1_accept_iff (db : List (String × UserInDB)) (now : Int)
    (token : Token) (user : UserInDB) :
    get_current_user db now token = .ok user ↔
      ∃ p u, token = .signed p SECRET_KEY ALGORITHM ∧
        (∀ e, p.exp = some e → ¬ e < now) ∧
        p.sub = some u ∧ get_user db u = some user := by
  rw [get_current_user_ok_iff]
  constructor
  · rintro ⟨p, u, hdec, hsub, hu⟩
    obtain ⟨htok, hexp⟩ := jwtDecode_ok_inv _ _ _ hdec
    exact ⟨p, u, htok, hexp, hsub, hu⟩
  · rintro ⟨p, u, htok, hexp, hsub, hu⟩
    subst htok
    exact ⟨p, u, jwtDecode_signed_ok p now hexp, hsub, hu⟩

/-- Claim C2: a user record with `disabled = True` never completes the
active-user gate: the gate never returns such a user, and whenever a
token resolves (however validly) to such a user, the gate fails with the
400 Inactive-user error. -/
theorem c2_gate_blocks_disabled (db : List (String × UserInDB)) (now : Int)
    (token : Token) :
    (∀ user, get_current_active_user db now token = .ok user →
      user.disabled ≠ some true) ∧
    (∀ user, get_current_user db now token = .ok user →
      user.disabled = some true →
      get_current_active_user db now token =
        .error { status_code := 400, detail := "Inactive user" }) := by
  constructor
  · intro user h hdis
    unfold get_current_active_user at h
    split at h
    · exact Except.noConfusion h
    · split at h
      · exact Except.noConfusion h
      · next hnd =>
        injection h with h2
        subst h2
        exact hnd hdis
  · intro user h hdis
    simp [get_current_active_user, h, hdis]

/-- Witness for C2: a valid token for a disabled johndoe variant is
rejected by the gate with the 400 Inactive-user error. -/
theorem c2_gate_blocks_disabled_witness :
    get_current_active_user [("johndoe", johndoeDisabled)] 1000
        (Token.signed { sub := some "johndoe", exp := some 2000 }
          SECRET_KEY ALGORITHM) =
      .error { status_code := 400, detail := "Inactive user" } :=
  (c2_gate_blocks_disabled [("johndoe", johndoeDisabled)] 1000
    (Token.signed { sub := some "johndoe", exp := some 2000 }
      SECRET_KEY ALGORITHM)).2 johndoeDisabled (by decide) (by decide)

/-- Claim C3, counterexample: for username alice (absent from the store)
and the positive ttl 60, verifying the issued token before the ttl
elapses (at time 1010, issued at 1000) does not yield alice: it fails
with the credentials exception, because get_current_user also requires
the subject to exist in the user store. -/
theorem c3_counterexample :
    (0 : Int) < 60 ∧ (1010 : Int) < 1000 + 60 ∧
    get_current_user fake_users_db 1010
        (create_access_token { sub := some "alice" } 1000 (some 60)) =
      .error credentials_exception := by decide

/-- Claim C3, amended: for every username u stored in the user store and
every positive ttl, verifying the token issued with subject u before the
ttl elapses succeeds and yields the record stored under u. -/
theorem c3_roundtrip_stored (db : List (String × UserInDB)) (u : String)
    (user : UserInDB) (now t d : Int)
    (hu : get_user db u = some user) (hd : 0 < d) (ht : t < now + d) :
    get_current_user db t (create_access_token { sub := some u } now (some d)) =
      .ok user := by
  have hne : d ≠ 0 := by omega
  have htok : create_access_token { sub := some u } now (some d) =
      Token.signed { sub := some u, exp := some (now + d) }
        SECRET_KEY ALGORITHM := by
    simp [create_access_token, hne]
  rw [htok, get_current_user_ok_iff]
  refine ⟨{ sub := some u, exp := some (now + d) }, u, ?_, rfl, hu⟩
  refine jwtDecode_signed_ok _ _ ?_
  intro e he
  simp only [Option.some.injEq] at he
  omega

/-- Witness for C3 (amended): the johndoe round trip with ttl 60,
verified 30 seconds after issuance, returns the stored johndoe record. -/
theorem c3_roundtrip_stored_witness :
    get_current_user fake_users_db 1030
        (create_access_token { sub := some "johndoe" } 1000 (some 60)) =
      .ok johndoe :=
  c3_roundtrip_stored fake_users_db "johndoe" johndoe 1000 1030 60
    (by decide) (by decide) (by decide)

/-- A model password-verification primitive for concrete witnesses: the
hash of p is "fakehashed" ++ p (the shape of fake_hash_password); the
real pwd_context.verify is bcrypt, external to this embedding. -/
def modelVerify (plain hashed : String) : Bool :=
  hashed == "fakehashed" ++ plain

/-- A store entry whose hash matches password "secret" under modelVerify. -/
def testUser : UserInDB :=
  { username := "johndoe", hashed_password := "fakehashedsecret" }

/-- A one-entry store for concrete witnesses. -/
def testDB : List (String × UserInDB) := [("johndoe", testUser)]

/-- Claim C4: authenticate_user returns the identical failure value (the
Python False, here `none`) when the username is absent and when the
username is present but the password fails verification, so the two
failure cases are indistinguishable to the caller; when the username is
present and the password verifies it returns the stored user record. -/
theorem c4_authenticate_indistinguishable
    (verify_pw : String → String → Bool) (db : List (String × UserInDB))
    (username password : String) :
    (get_user db username = none →
      authenticate_user verify_pw db username password = none) ∧
    (∀ user, get_user db username = some user →
      verify_pw password user.hashed_password = false →
      authenticate_user verify_pw db username password = none) ∧
    (∀ user, get_user db username = some user →
      verify_pw password user.hashed_password = true →
      authenticate_user verify_pw db username password = some user) := by
  refine ⟨fun h => by simp [authenticate_user, h],
    fun user h hv => by simp [authenticate_user, h, hv],
    fun user h hv => by simp [authenticate_user, h, hv]⟩

/-- Witness for C4: unknown user and wrong password both yield the same
value `none`; the right password yields the stored record. -/
theorem c4_authenticate_indistinguishable_witness :
    authenticate_user modelVerify testDB "nouser" "secret" = none ∧
    authenticate_user modelVerify testDB "johndoe" "wrong" = none ∧
    authenticate_user modelVerify testDB "johndoe" "secret" = some testUser := by
  refine ⟨?_, ?_, ?_⟩
  · exact (c4_authenticate_indistinguishable modelVerify testDB
      "nouser" "secret").1 (by decide)
  · exact (c4_authenticate_indistinguishable modelVerify testDB
      "johndoe" "wrong").2.1 testUser (by decide) (by decide)
  · exact (c4_authenticate_indistinguishable modelVerify testDB
      "johndoe" "secret").2.2 testUser (by decide) (by decide)

/-- Claim C5, counterexample: an expired token (exp 500 at time 1000,
which jwtDecode reports as expiredSignature) and a token with a bad
signature produce the very same failure value from get_current_user —
the one credentials exception — so expiry is not a distinct failure kind
of the verifier. -/
theorem c5_counterexample :
    jwtDecode (Token.signed { sub := some "johndoe", exp := some 500 }
        SECRET_KEY ALGORITHM) SECRET_KEY [ALGORITHM] 1000 =
      .error .expiredSignature ∧
    jwtDecode (Token.signed { sub := some "johndoe", exp := some 2000 }
        "bad-key" ALGORITHM) SECRET_KEY [ALGORITHM] 1000 =
      .error .invalidSignature ∧
    get_current_user fake_users_db 1000
        (Token.signed { sub := some "johndoe", exp := some 500 }
          SECRET_KEY ALGORITHM) =
      get_current_user fake_users_db 1000
        (Token.signed { sub := some "johndoe", exp := some 2000 }
          "bad-key" ALGORITHM) ∧
    get_current_user fake_users_db 1000
        (Token.signed { sub := some "johndoe", exp := some 500 }
          SECRET_KEY ALGORITHM) =
      .error credentials_exception := by decide

/-- Claim C5, amended: verification of an expired token fails, but with
the same credentials exception as every other decode failure:
get_current_user catches the whole JWTError family (expiry included)
and collapses it into the single 401 credentials exception. -/
theorem c5_decode_errors_collapse (db : List (String × UserInDB))
    (now : Int) (token : Token) (err : JWTError)
    (h : jwtDecode token SECRET_KEY [ALGORITHM] now = .error err) :
    get_current_user db now token = .error credentials_exception := by
  simp [get_current_user, h]

/-- Witness for C5 (amended): the expired johndoe token is rejected with
the credentials exception. -/
theorem c5_decode_errors_collapse_witness :
    get_current_user fake_users_db 1000
        (Token.signed { sub := some "johndoe", exp := some 500 }
          SECRET_KEY ALGORITHM) =
      .error credentials_exception :=
  c5_decode_errors_collapse fake_users_db 1000
    (Token.signed { sub := some "johndoe", exp := some 500 }
      SECRET_KEY ALGORITHM) .expiredSignature (by decide)

/-- Claim C6, counterexample: on the same validly signed, unexpired token
for johndoe, get_current_user returns the full stored UserInDB record —
hashed_password included, data that is not in the token — and with the
user removed from the store the very same token is rejected: the
verifier does look the user up and does not return just the subject. -/
theorem c6_counterexample :
    get_current_user fake_users_db 1000
        (Token.signed { sub := some "johndoe", exp := some 2000 }
          SECRET_KEY ALGORITHM) = .ok johndoe ∧
    johndoe.hashed_password =
      "$2b$12$EixZaYVK1fsbw1ZfbX3OXePaWxn96p36WQoeG6Lruj3vjPGga31lW" ∧
    get_current_user [] 1000
        (Token.signed { sub := some "johndoe", exp := some 2000 }
          SECRET_KEY ALGORITHM) = .error credentials_exception := by decide

/-- Claim C6, amended: on success get_current_user itself loads the user:
the value it returns is a record stored in the user store (the record
under the token's subject), not merely the subject username. -/
theorem c6_returns_loaded_record (db : List (String × UserInDB))
    (now : Int) (token : Token) (user : UserInDB)
    (h : get_current_user db now token = .ok user) :
    ∃ u, get_user db u = some user := by
  obtain ⟨p, u, _, _, hu⟩ := (get_current_user_ok_iff db now token user).1 h
  exact ⟨u, hu⟩

/-- Witness for C6 (amended): the record returned for the johndoe token
is stored in fake_users_db. -/
theorem c6_returns_loaded_record_witness :
    ∃ u, get_user fake_users_db u = some johndoe :=
  c6_returns_loaded_record fake_users_db 1000
    (Token.signed { sub := some "johndoe", exp := some 2000 }
      SECRET_KEY ALGORITHM) johndoe (by decide)

/-- Claim C7, counterexample: a supplied zero ttl does not give
expiry = now + 0: because `if expires_delta:` is Python truthiness, the
zero timedelta falls back to the 15-minute default, so the token issued
at 1000 with ttl 0 carries exp 1900, not 1000. -/
theorem c7_counterexample :
    create_access_token { sub := some "johndoe" } 1000 (some 0) =
      Token.signed { sub := some "johndoe", exp := some 1900 }
        SECRET_KEY ALGORITHM ∧
    (1900 : Int) ≠ 1000 + 0 := by decide

/-- Claim C7, amended: create_access_token computes expiry = now + ttl
when a nonzero ttl is supplied, and uses the 15-minute default both when
expires_delta is None and when it is the (falsy) zero duration; the
token binds the caller-supplied payload with that expiry under the exp
key, signed with SECRET_KEY under ALGORITHM. -/
theorem c7_expiry (data : Payload) (now : Int) :
    (∀ d : Int, d ≠ 0 → create_access_token data now (some d) =
      Token.signed { data with exp := some (now + d) }
        SECRET_KEY ALGORITHM) ∧
    create_access_token data now none =
      Token.signed { data with exp := some (now + 15 * 60) }
        SECRET_KEY ALGORITHM ∧
    create_access_token data now (some 0) =
      Token.signed { data with exp := some (now + 15 * 60) }
        SECRET_KEY ALGORITHM := by
  refine ⟨fun d hd => by simp [create_access_token, hd],
    by simp [create_access_token], by simp [create_access_token]⟩

/-- Witness for C7 (amended): ttl 60 at time 1000 gives exp 1000 + 60. -/
theorem c7_expiry_witness :
    create_access_token { sub := some "johndoe" } 1000 (some 60) =
      Token.signed { sub := some "johndoe", exp := some (1000 + 60) }
        SECRET_KEY ALGORITHM :=
  (c7_expiry { sub := some "johndoe" } 1000).1 60 (by decide)

/-- Claim C8: for every login request served by the POST /token handler
login_for_access_token, success of authenticate_user yields the body
with the issued access token and token_type "bearer" (the ttl being the
configured 30 minutes), and failure yields the 401 unauthorized error
carrying the WWW-Authenticate Bearer header. -/
theorem c8_login_endpoint (verify_pw : String → String → Bool)
    (db : List (String × UserInDB)) (now : Int)
    (username password : String) :
    (∀ user, authenticate_user verify_pw db username password = some user →
      login_for_access_token verify_pw db now username password =
        .ok { access_token :=
                create_access_token { sub := some user.username } now
                  (some (ACCESS_TOKEN_EXPIRE_MINUTES * 60))
              token_type := "bearer" }) ∧
    (authenticate_user verify_pw db username password = none →
      login_for_access_token verify_pw db now username password =
        .error { status_code := 401
                 detail := "Incorrect username or password"
                 www_authenticate := some "Bearer" }) := by
  constructor
  · intro user h
    simp [login_for_access_token, h]
  · intro h
    simp [login_for_access_token, h]

/-- Witness for C8: a correct login returns the bearer token body, a
wrong password returns the 401 with the Bearer header. -/
theorem c8_login_endpoint_witness :
    login_for_access_token modelVerify testDB 1000 "johndoe" "secret" =
      .ok { access_token :=
              create_access_token { sub := some "johndoe" } 1000 (some 1800)
            token_type := "bearer" } ∧
    login_for_access_token modelVerify testDB 1000 "johndoe" "wrong" =
      .error { status_code := 401
               detail := "Incorrect username or password"
               www_authenticate := some "Bearer" } := by
  constructor
  · have h := (c8_login_endpoint modelVerify testDB 1000 "johndoe"
      "secret").1 testUser (by decide)
    simpa using h
  · exact (c8_login_endpoint modelVerify testDB 1000 "johndoe" "wrong").2
      (by decide)

/-- Claim C9: a user whose disabled field is unset (None, the model
default) is treated as active: whenever the token resolves to such a
user, get_current_active_user returns that user as the principal. -/
theorem c9_disabled_none_is_active (db : List (String × UserInDB))
    (now : Int) (token : Token) (user : UserInDB)
    (h : get_current_user db now token = .ok user)
    (hd : user.disabled = none) :
    get_current_active_user db now token = .ok user := by
  simp [get_current_active_user, h, hd]

/-- Witness for C9: the johndoe variant with disabled unset passes the
active-user gate. -/
theorem c9_disabled_none_is_active_witness :
    get_current_active_user [("johndoe", johndoeNoneDisabled)] 1000
        (Token.signed { sub := some "johndoe", exp := some 2000 }
          SECRET_KEY ALGORITHM) = .ok johndoeNoneDisabled :=
  c9_disabled_none_is_active [("johndoe", johndoeNoneDisabled)] 1000
    (Token.signed { sub := some "johndoe", exp := some 2000 }
      SECRET_KEY ALGORITHM) johndoeNoneDisabled (by decide) (by decide)

/-- Claim C10: for every valid token whose subject names an existing user
that is not disabled, the value returned by the GET /users/me handler
(which declares no response model) is the full stored UserInDB record,
its hashed_password field included. -/
theorem c10_users_me_full_record (db : List (String × UserInDB))
    (now : Int) (token : Token) (p : Payload) (u : String) (user : UserInDB)
    (hdec : jwtDecode token SECRET_KEY [ALGORITHM] now = .ok p)
    (hsub : p.sub = some u) (huser : get_user db u = some user)
    (hact : user.disabled ≠ some true) :
    read_users_me db now token = .ok user ∧
    (read_users_me db now token).map UserInDB.hashed_password =
      .ok user.hashed_password := by
  have hcur : get_current_user db now token = .ok user := by
    simp [get_current_user, hdec, hsub, huser]
  have hme : read_users_me db now token = .ok user := by
    simp [read_users_me, get_current_active_user, hcur, hact]
  exact ⟨hme, by rw [hme]; rfl⟩

/-- Witness for C10: GET /users/me with a valid johndoe token returns the
full johndoe record, bcrypt hash included. -/
theorem c10_users_me_full_record_witness :
    read_users_me fake_users_db 1000
        (Token.signed { sub := some "johndoe", exp := some 2000 }
          SECRET_KEY ALGORITHM) = .ok johndoe :=
  (c10_users_me_full_record fake_users_db 1000
    (Token.signed { sub := some "johndoe", exp := some 2000 }
      SECRET_KEY ALGORITHM)
    { sub := some "johndoe", exp := some 2000 } "johndoe" johndoe
    (by decide) rfl (by decide) (by decide)).1
